import Mathlib

/-!
Verification of the PyShellyTemp persistence layer (pyshellytemp/db):
a shallow embedding of the SQL generation and execution engine
(db/access.py), the field conversion layer (db/fields.py) and the
ORM instance lifecycle and query builder (db/orm.py), with theorems
settling the specification claims about them.

Conventions of the embedding:
 - Python dicts become association lists preserving insertion order
   (updating an existing key keeps its position, new keys are appended).
 - Machine integers are Lean Int (Python ints are unbounded anyway).
 - Fallible code returns Except with an explicit error type whose
   constructors mirror the Python exception raised.
 - The SQLite engine itself is external to the repository; where a claim
   depends on the result of executing a generated statement, the
   documented SQLite semantics of that statement shape is modelled
   explicitly (see selectRowsEval / count_matching).
-/

namespace PyShellyTemp

set_option maxRecDepth 10000

/-- Values storable in the database (db/access.py DBValue).
Blob values are not needed by any claim and are omitted. -/
inductive DBValue where
  | nullV : DBValue
  | intV : Int → DBValue
  | textV : String → DBValue
  deriving DecidableEq, Repr

/-- Database comparison operator (db/access.py DBCmpOp). -/
inductive DBCmpOp where
  | eq | lt | lte | gt | gte
  deriving DecidableEq, Repr

/-- Database select/delete order (db/access.py DBOrder). -/
inductive DBOrder where
  | asc | desc
  deriving DecidableEq, Repr

/-- String value of a DBOrder member (DBOrder.ASC.value = asc, etc). -/
def DBOrder.str : DBOrder → String
  | .asc => "asc"
  | .desc => "desc"

/-- Parameters to a SELECT or DELETE request (db/access.py DBQuery).
Field names and defaults follow the source NamedTuple. -/
structure DBQuery where
  table_name : String
  filter : List (String × DBCmpOp × DBValue)
  order : List (String × DBOrder)
  offset : Int := -1
  max_count : Int := -1
  deriving DecidableEq, Repr

/-- Association list lookup, mirroring Python dict indexing: first (and
only) entry with the given key. -/
def lookupA {α : Type} (l : List (String × α)) (k : String) : Option α :=
  (l.find? (fun p => p.1 = k)).map Prod.snd

/-- Association list update, mirroring Python dict assignment: an existing
key keeps its position and gets the new value, a new key is appended. -/
def insertA {α : Type} : List (String × α) → String → α → List (String × α)
  | [], k, v => [(k, v)]
  | (k', v') :: rest, k, v =>
    if k' = k then (k, v) :: rest else (k', v') :: insertA rest k v

/-- CMP_STR lookup table of Database (db/access.py): the SQL text emitted
for each comparison operator. -/
def cmpStr : DBCmpOp → String
  | .eq => " = ?"
  | .lt => " < ?"
  | .lte => " <= ?"
  | .gt => " > ?"
  | .gte => " >= ?"

/-- Database.Separator semantics applied to a list of items: the first
item is preceded by the head string, the following ones by the separator
string; no items produce the empty string. -/
def sepJoin (head sep : String) : List String → String
  | [] => ""
  | x :: xs => head ++ x ++ String.join (xs.map (fun y => sep ++ y))

/-- The where clause of Database._query_parts: each filter entry yields
the column name followed by its comparator text, joined by Separator
(where, and). -/
def wherePart (filt : List (String × DBCmpOp × DBValue)) : String :=
  sepJoin " where " " and " (filt.map (fun p => p.1 ++ cmpStr p.2.1))

/-- The positional parameters appended by the where clause of
Database._query_parts, in filter order. -/
def whereParams (filt : List (String × DBCmpOp × DBValue)) : List DBValue :=
  filt.map (fun p => p.2.2)

/-- The order by clause of Database._query_parts, joined by Separator
(order by, comma). -/
def orderPart (ord : List (String × DBOrder)) : String :=
  sepJoin " order by " ", " (ord.map (fun p => p.1 ++ " " ++ p.2.str))

/-- Database._query_parts (db/access.py): the from / where / order by /
limit / offset tail of a SELECT or DELETE statement, together with the
positional parameter list it builds. A limit clause is emitted whenever
a limit or an offset is set; an offset clause whenever an offset is set. -/
def queryParts (q : DBQuery) : String × List DBValue :=
  (" from " ++ q.table_name ++ wherePart q.filter ++ orderPart q.order
      ++ (if q.max_count ≥ 0 ∨ q.offset ≥ 0
          then " limit " ++ toString q.max_count else "")
      ++ (if q.offset ≥ 0 then " offset " ++ toString q.offset else ""),
    whereParams q.filter)

/-- Database._select_parts (db/access.py): the full SELECT statement text
for the given column names and query, with its parameter list. -/
def selectParts (cols : List String) (q : DBQuery) : String × List DBValue :=
  ("select " ++ sepJoin "" ", " cols ++ (queryParts q).1 ++ ";",
    (queryParts q).2)

/-- A database row, as a mapping from column name to stored value. -/
def Row : Type := List (String × DBValue)

instance : DecidableEq Row := by
  unfold Row
  infer_instance

/-- Value of a column in a row; a column absent from the row reads as
null (the generated statements only name declared columns). -/
def rowGet (r : Row) (col : String) : DBValue :=
  (lookupA r col).getD .nullV

/-- SQLite value ordering used by comparisons and order by: null sorts
before integers, integers before text; within a class the natural order. -/
def dbValueLe : DBValue → DBValue → Bool
  | .nullV, _ => true
  | _, .nullV => false
  | .intV a, .intV b => a ≤ b
  | .intV _, .textV _ => true
  | .textV _, .intV _ => false
  | .textV a, .textV b => a ≤ b

/-- SQLite comparison semantics for a where clause term: any comparison
against null is not true (the row is not matched); otherwise the
comparator applies under the value ordering. -/
def evalCmp (op : DBCmpOp) (v w : DBValue) : Bool :=
  match v, w with
  | .nullV, _ => false
  | _, .nullV => false
  | _, _ =>
    match op with
    | .eq => v = w
    | .lt => dbValueLe v w && ¬(v = w)
    | .lte => dbValueLe v w
    | .gt => dbValueLe w v && ¬(v = w)
    | .gte => dbValueLe w v

/-- A row matches a filter when every filter term evaluates to true on it
(the where clause joins the terms with and). -/
def matchesFilter (filt : List (String × DBCmpOp × DBValue)) (r : Row) : Bool :=
  filt.all (fun p => evalCmp p.2.1 (rowGet r p.1) p.2.2)

/-- Lexicographic row comparison along the order by column list:
equal keys defer to the next column, asc uses the value ordering
directly and desc reverses it. -/
def rowLe (ord : List (String × DBOrder)) (r1 r2 : Row) : Bool :=
  match ord with
  | [] => true
  | (col, dir) :: rest =>
    let v1 := rowGet r1 col
    let v2 := rowGet r2 col
    if v1 = v2 then rowLe rest r1 r2
    else match dir with
      | .asc => dbValueLe v1 v2
      | .desc => dbValueLe v2 v1

/-- Insertion into a sorted row list, keeping the sort stable. -/
def insertSorted (le : Row → Row → Bool) (x : Row) : List Row → List Row
  | [] => [x]
  | y :: ys => if le x y then x :: y :: ys else y :: insertSorted le x ys

/-- Stable sort of the result rows along the order by list. -/
def sortRows (ord : List (String × DBOrder)) (rows : List Row) : List Row :=
  rows.foldr (insertSorted (rowLe ord)) []

/-- SQLite limit and offset semantics on a result row list: a
non-negative offset drops that many leading rows (a negative offset is
not emitted), then a non-negative limit keeps at most that many rows and
a negative limit keeps everything (the -1 sentinel means unbounded). -/
def applyLimitOffset {α : Type} (max_count offset : Int) (rows : List α) :
    List α :=
  let rows := if offset ≥ 0 then rows.drop offset.toNat else rows
  if max_count ≥ 0 then rows.take max_count.toNat else rows

/-- Documented SQLite semantics of the plain-column SELECT statement
emitted by Database._select_parts for a query: filter the table rows by
the where clause, sort them by the order by clause, then apply limit and
offset. -/
def selectRowsEval (q : DBQuery) (table : List Row) : List Row :=
  applyLimitOffset q.max_count q.offset
    (sortRows q.order (table.filter (matchesFilter q.filter)))

/-- Documented SQLite semantics of the select count(*) statement emitted
for a query: the aggregate collapses all rows matched by the where
clause into a single result row holding their count, and the limit and
offset clauses then apply to that one-row result list. -/
def selectCountEval (q : DBQuery) (table : List Row) : List (List DBValue) :=
  applyLimitOffset q.max_count q.offset
    [[DBValue.intV ((table.filter (matchesFilter q.filter)).length : Int)]]

/-- TableDef.count_matching (db/orm.py) composed with the SQLite
semantics of its generated statement: take the first result row of
select count(*) and its first value. An empty result models the
StopIteration escaping from next(iter(...)); a non-integer value models
the assert (neither can yield a count). -/
def count_matching (q : DBQuery) (table : List Row) : Option Int :=
  match selectCountEval q table with
  | [] => none
  | row :: _ =>
    match row with
    | DBValue.intV k :: _ => some k
    | _ => none

/-- Split a character list at the LAST occurrence of a double underscore,
mirroring Python str.rpartition on that separator: returns the parts
before and after it, or none when the separator does not occur. -/
def splitLastUU : List Char → Option (List Char × List Char)
  | [] => none
  | c :: rest =>
    match splitLastUU rest with
    | some (pre, post) => some (c :: pre, post)
    | none =>
      match c, rest with
      | '_', '_' :: rest2 => some ([], rest2)
      | _, _ => none

/-- Member lookup of DBCmpOp from its value string (DBCmpOp(raw_cmp)). -/
def DBCmpOp.ofString : String → Option DBCmpOp
  | "eq" => some .eq
  | "lt" => some .lt
  | "lte" => some .lte
  | "gt" => some .gt
  | "gte" => some .gte
  | _ => none

/-- Error conditions raised by the query builder layer. -/
inductive QueryErr where
  | badComparator (raw : String)
  | alreadyFiltered (name : String)
  | limitsAlreadySet
  | negativeStart
  | negativeStop
  deriving DecidableEq, Repr

/-- DBCmpOp.extract_comp (db/access.py): split a where specifier at its
last double underscore into a column name and a comparator; without a
separator the whole string is the column and the comparator is EQ; an
unknown comparator suffix is a parse error. -/
def extract_comp (value : String) : Except QueryErr (String × DBCmpOp) :=
  match splitLastUU value.data with
  | none => .ok (value, .eq)
  | some (pre, post) =>
    match DBCmpOp.ofString (String.mk post) with
    | none => .error (.badComparator value)
    | some cmp => .ok (String.mk pre, cmp)

/-- Python-level values held in object attributes. A record instance
assigned to a foreign-key field is represented by the data its
conversion inspects: the target table, the id attribute, the persisted
db_id and whether the id field sits in its dirty map. -/
inductive PyVal where
  | noneV : PyVal
  | intP : Int → PyVal
  | strP : String → PyVal
  | boolP : Bool → PyVal
  | objP : String → Int → Int → Bool → PyVal
  deriving DecidableEq, Repr

/-- Python type of a value field (the py_type of an ORMValueField among
the built-in registrations exercised here). -/
inductive PyTy where
  | intT | strT | boolT
  deriving DecidableEq, Repr

/-- Kind of an ORM field: a value column with its Python type, or a
foreign key column naming the target table. -/
inductive FieldKind where
  | value : PyTy → FieldKind
  | fk : String → FieldKind
  deriving DecidableEq, Repr

/-- One declared field of a table (ORMField, db/fields.py): Python name,
database column name, kind and nullability. The identity field is
(id, id, value intT, not nullable) and always comes first. -/
structure FieldDef where
  name : String
  db_name : String
  kind : FieldKind
  nullable : Bool
  deriving DecidableEq, Repr

/-- The implicit identity field (ORMIDField.get). -/
def idField : FieldDef := ⟨"id", "id", .value .intT, false⟩

/-- Error conditions raised by value conversion (db/fields.py). -/
inductive ConvErr where
  | notNullable (field_name : String)
  | wrongType (field_name : String)
  | notSaved (field_name : String)
  deriving DecidableEq, Repr

/-- TableDef.check_has_id (db/orm.py) on the properties data of the
checked object: a stable database identity means a non-negative
persisted id with no unsaved reassignment of the id field. -/
def check_has_id (db_id : Int) (id_modified : Bool) : Bool :=
  db_id ≥ 0 && !id_modified

/-- ORMField.convert_to_db (db/fields.py) for the built-in field kinds:
a null value needs a nullable field; a value field checks the Python
type and applies its converter (identity for int and str, int(b) for
bool); a foreign-key field (ORMFKField._convert_to_db) checks the value
is an instance of the target type that reports a stable database
identity, and stores its id attribute. -/
def convert_to_db (fd : FieldDef) (field_name : String) (v : PyVal) :
    Except ConvErr DBValue :=
  match v with
  | .noneV =>
    if fd.nullable then .ok .nullV else .error (.notNullable field_name)
  | _ =>
    match fd.kind with
    | .value ty =>
      match ty, v with
      | .intT, .intP n => .ok (.intV n)
      | .strT, .strP s => .ok (.textV s)
      | .boolT, .boolP b => .ok (.intV (if b then 1 else 0))
      | _, _ => .error (.wrongType field_name)
    | .fk target =>
      match v with
      | .objP t id_attr db_id id_modified =>
        if t = target then
          if check_has_id db_id id_modified then .ok (.intV id_attr)
          else .error (.notSaved field_name)
        else .error (.wrongType field_name)
      | _ => .error (.wrongType field_name)

/-- DBObjectProps (db/orm.py): persisted id (negative when never saved),
pending foreign-key ids by Python field name, and the dirty map of
database values by column name. -/
structure DBObjectProps where
  db_id : Int
  fk_ids : List (String × Int)
  modified : List (String × DBValue)
  deriving DecidableEq, Repr

/-- In-memory state of a record instance: its attribute slots (set via
object.__setattr__) and its _db_props, which delete() removes (none
models the deleted instance). -/
structure ObjState where
  slots : List (String × PyVal)
  props : Option DBObjectProps
  deriving DecidableEq, Repr

/-- A statement issued against the database connection. -/
inductive DBOp where
  | insertOp : String → List (String × DBValue) → DBOp
  | updateEqualOp : String → String → DBValue → List (String × DBValue) → DBOp
  | deleteEqualOp : String → String → DBValue → DBOp
  | fetchOneOp : String → Int → DBOp
  deriving DecidableEq, Repr

/-- Response of the engine to an INSERT or UPDATE statement: success
with the last inserted row id, or an integrity error carrying the
engine message. -/
inductive DBOutcome where
  | okRes : Int → DBOutcome
  | integrityErr : String → DBOutcome
  deriving DecidableEq, Repr

/-- Character-list prefix test, the semantics of Python str.startswith. -/
def strHasHead : List Char → List Char → Bool
  | [], _ => true
  | _ :: _, [] => false
  | c :: cs, d :: ds => c = d && strHasHead cs ds

/-- DBUniqueError.check (db/access.py): an integrity error whose message
starts with the UNIQUE constraint failure text is mapped to
DBUniqueError; any other integrity error propagates unchanged. -/
def isUniqueMsg (msg : String) : Bool :=
  strHasHead "UNIQUE constraint failed".data msg.data

/-- Error conditions escaping from TableDef.save_obj. -/
inductive SaveErr where
  | deletedUse
  | noValue (field_name : String)
  | alreadyExists (msg : String)
  | dbUnique (msg : String)
  | integrity (msg : String)
  deriving DecidableEq, Repr

/-- The persisted id adopted after an UPDATE: the value of the id column
in the dirty map when the id field was reassigned (the id column always
holds an integer), the previous persisted id otherwise. -/
def adoptId (modified : List (String × DBValue)) (db_id : Int) : Int :=
  match lookupA modified "id" with
  | some (.intV n) => n
  | _ => db_id

/-- TableDef.save_obj (db/orm.py) with the engine response to its single
statement supplied as dbRes. A deleted instance errors; a clean
persisted instance is a no-op issuing no statement; an unpersisted
instance first checks every non-identity field for a dirty value, then
inserts the full dirty map, adopts the returned row id (also setting the
id attribute) and clears the dirty map, mapping a unique-violation
integrity failure to the record class scoped AlreadyExists; a persisted
dirty instance updates only the dirty columns of the row with the
persisted id, adopting a reassigned id value, the unique-violation
mapping of Database.update_equal (DBUniqueError) escaping unscoped. -/
def save_obj (table : String) (fields : List FieldDef) (s : ObjState)
    (dbRes : DBOutcome) : Except SaveErr (ObjState × List DBOp) :=
  match s.props with
  | none => .error .deletedUse
  | some p =>
    let to_create := p.db_id < 0
    if p.modified = [] ∧ ¬to_create then .ok (s, [])
    else if to_create then
      match fields.find?
          (fun fd => fd.name ≠ "id" ∧ lookupA p.modified fd.db_name = none) with
      | some fd => .error (.noValue fd.name)
      | none =>
        match dbRes with
        | .integrityErr msg =>
          if isUniqueMsg msg then .error (.alreadyExists msg)
          else .error (.integrity msg)
        | .okRes rowid =>
          .ok ({ slots := insertA s.slots "id" (.intP rowid),
                 props := some ⟨rowid, p.fk_ids, []⟩ },
               [.insertOp table p.modified])
    else
      match dbRes with
      | .integrityErr msg =>
        if isUniqueMsg msg then .error (.dbUnique msg)
        else .error (.integrity msg)
      | .okRes _ =>
        .ok ({ s with props := some ⟨adoptId p.modified p.db_id, p.fk_ids, []⟩ },
             [.updateEqualOp table "id" (.intV p.db_id) p.modified])

/-- Error conditions escaping from TableDef.delete_obj. -/
inductive DelErr where
  | deletedUse
  | isModified
  | assertNoId
  deriving DecidableEq, Repr

/-- TableDef.delete_obj (db/orm.py): a deleted instance errors; a dirty
instance errors before any statement is issued; otherwise (the assert
requires a persisted id) the row with the persisted id is deleted and
the _db_props attribute is removed, invalidating the instance. -/
def delete_obj (table : String) (s : ObjState) :
    Except DelErr (ObjState × List DBOp) :=
  match s.props with
  | none => .error .deletedUse
  | some p =>
    if p.modified ≠ [] then .error .isModified
    else if p.db_id < 0 then .error .assertNoId
    else .ok ({ s with props := none },
              [.deleteEqualOp table "id" (.intV p.db_id)])

/-- Error conditions raised when reading an attribute of a record
instance: no such attribute, use of a deleted instance
(TableDef._get_props), the assertion of ORMField.get_fk_type reached on
a value field, or the missing pending-id KeyError of
TableDef.resolve_fk. -/
inductive GetErr where
  | attrError
  | deletedUse
  | assertNonFK
  | keyError
  deriving DecidableEq, Repr

/-- Attribute read on a record instance (object lookup plus
DBObject.__getattr__ with TableDef.resolve_fk, db/orm.py): a populated
slot is returned directly with no database access; otherwise resolve_fk
runs: an undeclared name is an AttributeError, a deleted instance
errors, a value field hits the get_fk_type assertion, a foreign-key
field without a pending id raises KeyError, and one with a pending id
fetches the target record by that id (one query), caches the resolved
instance in the slot and returns it. Returns the result, the new state
and the statements issued. -/
def getattrObj (fields : List FieldDef) (s : ObjState) (key : String) :
    Except GetErr PyVal × ObjState × List DBOp :=
  match lookupA s.slots key with
  | some v => (.ok v, s, [])
  | none =>
    match fields.find? (fun fd => fd.name = key) with
    | none => (.error .attrError, s, [])
    | some fd =>
      match s.props with
      | none => (.error .deletedUse, s, [])
      | some p =>
        match fd.kind with
        | .value _ => (.error .assertNonFK, s, [])
        | .fk target =>
          match lookupA p.fk_ids key with
          | none => (.error .keyError, s, [])
          | some fkid =>
            let fkObj := PyVal.objP target fkid fkid false
            (.ok fkObj,
             { s with slots := insertA s.slots key fkObj },
             [.fetchOneOp target fkid])

/-- Error conditions raised when assigning an attribute of a record
instance. -/
inductive SetErr where
  | negativeId
  | deletedUse
  | attrError
  | conv (e : ConvErr)
  deriving DecidableEq, Repr

/-- Attribute assignment on a record instance (DBObject.__setattr__ with
TableDef.handle_obj_assign, db/orm.py): a negative id value is rejected
first; a deleted instance errors; an undeclared field name is an
AttributeError; otherwise the value is converted through the field codec,
recorded in the dirty map under the database column name, and the slot
is updated. -/
def setattrObj (fields : List FieldDef) (s : ObjState) (key : String)
    (v : PyVal) : Except SetErr ObjState :=
  if key = "id" && (match v with | .intP n => n < 0 | _ => false) then
    .error .negativeId
  else
    match s.props with
    | none => .error .deletedUse
    | some p =>
      match fields.find? (fun fd => fd.name = key) with
      | none => .error .attrError
      | some fd =>
        match convert_to_db fd key v with
        | .error e => .error (.conv e)
        | .ok dbv =>
          .ok { slots := insertA s.slots key v,
                props := some { p with
                  modified := insertA p.modified fd.db_name dbv } }

/-- ORMField.convert_to_py_and_set (db/fields.py) for one field during
hydration: a null column sets the slot to None directly (also for
foreign keys, which then must never trigger a lookup); a value column
converts back through the codec into the slot; a non-null foreign-key
column records the raw id in the pending fk_ids map and leaves the slot
unset. -/
def convertToPyAndSet (fd : FieldDef) (dbv : DBValue)
    (acc : List (String × PyVal) × List (String × Int)) :
    List (String × PyVal) × List (String × Int) :=
  match dbv with
  | .nullV => (insertA acc.1 fd.name .noneV, acc.2)
  | _ =>
    match fd.kind with
    | .value ty =>
      match ty, dbv with
      | .intT, .intV n => (insertA acc.1 fd.name (.intP n), acc.2)
      | .strT, .textV s => (insertA acc.1 fd.name (.strP s), acc.2)
      | .boolT, .intV n => (insertA acc.1 fd.name (.boolP (n ≠ 0)), acc.2)
      | _, _ => acc
    | .fk _ =>
      match dbv with
      | .intV n => (acc.1, insertA acc.2 fd.name n)
      | _ => acc

/-- TableDef._obj_from_db (db/orm.py): hydrate a record instance from a
row, the database values paired with the fields in declaration order;
the persisted id is read back from the id attribute just set, and the
dirty map starts empty. -/
def obj_from_db (fields : List FieldDef) (row : List DBValue) : ObjState :=
  let built := (List.zip fields row).foldl
    (fun acc p => convertToPyAndSet p.1 p.2 acc) ([], [])
  let db_id := match lookupA built.1 "id" with
    | some (.intP n) => n
    | _ => -1
  { slots := built.1, props := some ⟨db_id, built.2, []⟩ }

/-- Query (db/orm.py): an immutable query descriptor. The target table
definition is represented by its table name; the filter dictionary keys
are the raw keyword strings (field name with optional comparator
suffix), holding the Python filter values. -/
structure Query where
  table_name : String
  whereDict : List (String × PyVal)
  order : List String := []
  limit : Int := -1
  offset : Int := -1
  deriving DecidableEq, Repr

/-- Query.filter (db/orm.py): reject any added condition whose raw key
already appears among the descriptor filter keys (reporting one common
name), otherwise return a new descriptor with the combined filters; the
receiver is never mutated. -/
def Query.filterQ (q : Query) (added : List (String × PyVal)) :
    Except QueryErr Query :=
  match added.find? (fun p => (lookupA q.whereDict p.1).isSome) with
  | some p => .error (.alreadyFiltered p.1)
  | none => .ok { q with whereDict := q.whereDict ++ added }

/-- Query.__getitem__ (db/orm.py) on a continuous integer slice: errors
if the descriptor already has a limit or offset set; a missing start is
offset 0 and a negative start is an error; a missing stop is the
unbounded limit -1 and a negative stop is an error; a stop at or below
the normalized offset gives the limit 0, otherwise the limit is the
difference. -/
def Query.getItem (q : Query) (start stop : Option Int) :
    Except QueryErr Query :=
  if q.limit ≥ 0 ∨ q.offset ≥ 0 then .error .limitsAlreadySet
  else
    match (match start with
           | none => .ok 0
           | some sv => if sv < 0 then .error .negativeStart else .ok sv :
           Except QueryErr Int) with
    | .error e => .error e
    | .ok new_offset =>
      match (match stop with
             | none => .ok (-1)
             | some tv =>
               if tv < 0 then .error .negativeStop
               else if tv ≤ new_offset then .ok 0
               else .ok (tv - new_offset) : Except QueryErr Int) with
      | .error e => .error e
      | .ok new_limit =>
        .ok { q with limit := new_limit, offset := new_offset }

/-- TableDef._build_query (db/orm.py) at the level of already converted
filter and order lists: the descriptor limit becomes the max_count of
the DBQuery and the offset carries over. -/
def build_query (q : Query) (filt : List (String × DBCmpOp × DBValue))
    (ord : List (String × DBOrder)) : DBQuery :=
  ⟨q.table_name, filt, ord, q.offset, q.limit⟩

/-! Helper lemmas shared by the claim theorems. -/

/-- Looking up the key just inserted returns the inserted value. -/
theorem lookupA_insertA_self {α : Type} (l : List (String × α)) (k : String)
    (v : α) : lookupA (insertA l k v) k = some v := by
  induction l with
  | nil => simp [insertA, lookupA]
  | cons hd tl ih =>
    by_cases h : hd.1 = k
    · simp [insertA, h, lookupA]
    · obtain ⟨k', v'⟩ := hd
      simp only at h
      simp [insertA, h, lookupA, List.find?]
      simpa [lookupA] using ih

/-- The limit and offset window keeps a singleton result list exactly
when the offset clause does not skip past position zero and the limit
clause is unbounded or at least one. -/
theorem applyLimitOffset_singleton_keep {α : Type} (m o : Int) (x : α)
    (h1 : o < 1) (h2 : m < 0 ∨ 1 ≤ m) :
    applyLimitOffset m o [x] = [x] := by
  unfold applyLimitOffset
  by_cases ho : o ≥ 0
  · have : o.toNat = 0 := by omega
    rw [if_pos ho, this]
    by_cases hm : m ≥ 0
    · have hm1 : 1 ≤ m.toNat := by omega
      rw [if_pos hm]
      simp [List.take_of_length_le, hm1]
    · rw [if_neg hm]
      rfl
  · rw [if_neg ho]
    by_cases hm : m ≥ 0
    · have hm1 : 1 ≤ m.toNat := by omega
      rw [if_pos hm]
      simp [List.take_of_length_le, hm1]
    · rw [if_neg hm]

/-- The limit and offset window drops a singleton result list exactly
when the offset skips at least one row or the limit is zero. -/
theorem applyLimitOffset_singleton_gone {α : Type} (m o : Int) (x : α)
    (h : 1 ≤ o ∨ m = 0) :
    applyLimitOffset m o [x] = [] := by
  unfold applyLimitOffset
  rcases h with h | h
  · have ho : o ≥ 0 := by omega
    have h1 : 1 ≤ o.toNat := by omega
    rw [if_pos ho]
    have : List.drop o.toNat [x] = [] := by
      apply List.drop_eq_nil_of_le
      simpa using h1
    rw [this]
    by_cases hm : m ≥ 0
    · rw [if_pos hm]; exact List.take_nil
    · rw [if_neg hm]
  · subst h
    by_cases ho : o ≥ 0 <;> simp [ho]

/-- A zero limit empties any result list. -/
theorem applyLimitOffset_zero {α : Type} (o : Int) (rows : List α) :
    applyLimitOffset 0 o rows = [] := by
  unfold applyLimitOffset
  simp

/-! Claim theorems. -/

/-- Claim C8: the SELECT translation of a query descriptor follows the
documented grammar exactly: for columns a, b of table t, filters c < 123
and d >= 456, order c asc, d desc, e asc, offset 42 and no limit, the
engine emits exactly the documented statement text with parameters
123, 456; and in general, whenever an offset is present, a limit clause
is emitted before it carrying the stored max_count (the sentinel -1 when
no limit was set). -/
theorem C8_select_sql :
    selectParts ["a", "b"]
        ⟨"t", [("c", .lt, .intV 123), ("d", .gte, .intV 456)],
          [("c", .asc), ("d", .desc), ("e", .asc)], 42, -1⟩
      = ("select a, b from t where c < ? and d >= ? order by c asc, " ++
          "d desc, e asc limit -1 offset 42;",
         [.intV 123, .intV 456])
    ∧ ∀ q : DBQuery, q.offset ≥ 0 →
        (queryParts q).1
          = " from " ++ q.table_name ++ wherePart q.filter
            ++ orderPart q.order
            ++ (" limit " ++ toString q.max_count)
            ++ (" offset " ++ toString q.offset) := by
  constructor
  · rfl
  · intro q h
    unfold queryParts
    rw [if_pos (Or.inr h), if_pos h]

/-- Witness for C8 at a concrete query with offset 7 and no limit. -/
theorem C8_select_sql_witness :
    (queryParts ⟨"t", [], [], 7, -1⟩).1
      = " from " ++ "t" ++ wherePart [] ++ orderPart []
        ++ (" limit " ++ toString (-1 : Int))
        ++ (" offset " ++ toString (7 : Int)) :=
  C8_select_sql.2 ⟨"t", [], [], 7, -1⟩ (by decide)

/-- Counterexample to claim C1: on a two-row table with an empty filter,
a query descriptor with limit 1 still counts 2 (the count exceeds the
limit), and a descriptor with offset 1 makes count fail with no result
row instead of returning an integer. -/
theorem C1_counterexample :
    count_matching ⟨"t", [], [], -1, 1⟩
        [[("id", DBValue.intV 1)], [("id", DBValue.intV 2)]] = some 2
    ∧ ¬((2 : Int) ≤ 1)
    ∧ count_matching ⟨"t", [], [], 1, -1⟩
        [[("id", DBValue.intV 1)], [("id", DBValue.intV 2)]] = none := by
  refine ⟨by decide, by decide, by decide⟩

/-- Claim C1 (amended): count honors the filter but not the limit or
offset window: the generated select count(*) statement collapses all
rows matching the filter into one aggregate row, and limit and offset
apply to that single-row result. Whenever the window keeps position
zero (offset unset or zero, limit unset, negative or at least one),
count returns the full number of rows matching the filter; whenever the
window drops it (offset at least one, or limit zero), the statement
yields no row and count fails instead of returning an integer. -/
theorem C1_count_matching (table : List Row) :
    (∀ q : DBQuery, q.offset < 1 → (q.max_count < 0 ∨ 1 ≤ q.max_count) →
      count_matching q table
        = some ((table.filter (matchesFilter q.filter)).length : Int))
    ∧ (∀ q : DBQuery, 1 ≤ q.offset ∨ q.max_count = 0 →
      count_matching q table = none) := by
  constructor
  · intro q h1 h2
    unfold count_matching selectCountEval
    rw [applyLimitOffset_singleton_keep q.max_count q.offset _ h1 h2]
  · intro q h
    unfold count_matching selectCountEval
    rw [applyLimitOffset_singleton_gone q.max_count q.offset _ h]

/-- Witness for C1 on a concrete two-row table: an unlimited query
counts both rows; an offset-1 query yields no count. -/
theorem C1_count_matching_witness :
    count_matching ⟨"t", [], [], -1, -1⟩
        [[("id", DBValue.intV 1)], [("id", DBValue.intV 2)]] = some 2
    ∧ count_matching ⟨"t", [], [], 1, -1⟩
        [[("id", DBValue.intV 1)], [("id", DBValue.intV 2)]] = none := by
  constructor
  · have h := (C1_count_matching
      [[("id", DBValue.intV 1)], [("id", DBValue.intV 2)]]).1
      ⟨"t", [], [], -1, -1⟩ (by decide) (by decide)
    simpa using h
  · exact (C1_count_matching
      [[("id", DBValue.intV 1)], [("id", DBValue.intV 2)]]).2
      ⟨"t", [], [], 1, -1⟩ (by decide)

/-- Claim C5: on a descriptor without limit or offset set, slicing maps
a missing start to offset 0 and a missing stop to the unbounded limit;
a negative start or stop is a typed error; a stop at or below the
normalized offset yields the limit 0 and the resulting query returns
zero rows for every table; and slicing a descriptor whose limit or
offset is already set is a typed error. -/
theorem C5_slice (q : Query) (hq : q.limit < 0 ∧ q.offset < 0) :
    q.getItem none none = .ok { q with limit := -1, offset := 0 }
    ∧ (∀ s : Int, s < 0 → ∀ stop : Option Int,
        q.getItem (some s) stop = .error .negativeStart)
    ∧ (∀ t : Int, t < 0 → q.getItem none (some t) = .error .negativeStop)
    ∧ (∀ s t : Int, 0 ≤ s → 0 ≤ t → t ≤ s →
        q.getItem (some s) (some t) = .ok { q with limit := 0, offset := s }
        ∧ ∀ (filt : List (String × DBCmpOp × DBValue))
            (ord : List (String × DBOrder)) (table : List Row),
            selectRowsEval
              (build_query { q with limit := 0, offset := s } filt ord)
              table = [])
    ∧ (∀ q' : Query, q'.limit ≥ 0 ∨ q'.offset ≥ 0 →
        ∀ start stop : Option Int,
          q'.getItem start stop = .error .limitsAlreadySet) := by
  have hno : ¬(q.limit ≥ 0 ∨ q.offset ≥ 0) := by omega
  refine ⟨?_, ?_, ?_, ?_, ?_⟩
  · unfold Query.getItem
    rw [if_neg hno]
  · intro s hs stop
    unfold Query.getItem
    rw [if_neg hno]
    simp [hs]
  · intro t ht
    unfold Query.getItem
    rw [if_neg hno]
    simp [ht, show ¬(t < 0) → False from fun h => h ht]
  · intro s t hs ht hts
    constructor
    · unfold Query.getItem
      rw [if_neg hno]
      have h1 : ¬(s < 0) := by omega
      have h2 : ¬(t < 0) := by omega
      simp [h1, h2, hts]
    · intro filt ord table
      unfold selectRowsEval build_query
      exact applyLimitOffset_zero _ _
  · intro q' h start stop
    unfold Query.getItem
    rw [if_pos h]

/-- Witness for C5 at a fresh descriptor: slicing 6 to 5 gives the
zero-row limit, and the query evaluates to no rows on a one-row table. -/
theorem C5_slice_witness :
    Query.getItem ⟨"t", [], [], -1, -1⟩ (some 6) (some 5)
      = .ok ⟨"t", [], [], 0, 6⟩
    ∧ selectRowsEval (build_query ⟨"t", [], [], 0, 6⟩ [] [])
        [[("id", DBValue.intV 1)]] = [] := by
  have h := (C5_slice ⟨"t", [], [], -1, -1⟩ ⟨by decide, by decide⟩).2.2.2.1
    6 5 (by omega) (by omega) (by omega)
  exact ⟨h.1, h.2 [] [] [[("id", DBValue.intV 1)]]⟩

/-- Counterexample to claim C6: a descriptor already filtered with the
raw key x__lt accepts a further filter with the raw key x__gt and
returns the combined descriptor, although both conditions refer to the
same field x (with different comparator suffixes), where the claim
requires a typed error. -/
theorem C6_counterexample :
    Query.filterQ ⟨"t", [("x__lt", .intP 5)], [], -1, -1⟩ [("x__gt", .intP 3)]
      = .ok ⟨"t", [("x__lt", .intP 5), ("x__gt", .intP 3)], [], -1, -1⟩
    ∧ extract_comp "x__lt" = .ok ("x", .lt)
    ∧ extract_comp "x__gt" = .ok ("x", .gt) := by
  refine ⟨by rfl, by rfl, by rfl⟩

/-- Claim C6 (amended): filter raises the typed already-filtered error
exactly when an added condition repeats a raw filter key of the
descriptor (the field name with the same comparator suffix); conditions
on the same field under a different suffix are not rejected. When no
raw key repeats, a new descriptor holding the combined filters is
returned and the receiver is not modified (the builder is pure). -/
theorem C6_filter (q : Query) (added : List (String × PyVal)) :
    ((∃ p ∈ added, (lookupA q.whereDict p.1).isSome) →
      ∃ name, q.filterQ added = .error (.alreadyFiltered name))
    ∧ ((∀ p ∈ added, lookupA q.whereDict p.1 = none) →
      q.filterQ added = .ok { q with whereDict := q.whereDict ++ added }) := by
  constructor
  · intro h
    unfold Query.filterQ
    have : (added.find? (fun p => (lookupA q.whereDict p.1).isSome)).isSome := by
      rw [List.find?_isSome]
      obtain ⟨p, hp, hs⟩ := h
      exact ⟨p, hp, by simpa using hs⟩
    obtain ⟨p, hp⟩ := Option.isSome_iff_exists.mp this
    rw [hp]
    exact ⟨p.1, rfl⟩
  · intro h
    unfold Query.filterQ
    have : added.find? (fun p => (lookupA q.whereDict p.1).isSome) = none := by
      rw [List.find?_eq_none]
      intro p hp
      simp [h p hp]
    rw [this]

/-- Witness for C6: adding a condition on a fresh raw key returns the
combined descriptor. -/
theorem C6_filter_witness :
    Query.filterQ ⟨"t", [("a", .intP 1)], [], -1, -1⟩ [("b", .intP 2)]
      = .ok ⟨"t", [("a", .intP 1), ("b", .intP 2)], [], -1, -1⟩ :=
  (C6_filter ⟨"t", [("a", .intP 1)], [], -1, -1⟩ [("b", .intP 2)]).2
    (by decide)

/-- Fields of the example table used by concrete save and delete
instances: the identity field plus one non-nullable text field. -/
def exFields : List FieldDef := [idField, ⟨"name", "name", .value .strT, false⟩]

/-- Counterexample to claim C2: saving a persisted dirty instance whose
update hits a unique-constraint integrity failure raises the unscoped
DBUniqueError of the access layer, not the record class scoped
AlreadyExists exception required by the claim for the UPDATE path. -/
theorem C2_counterexample :
    save_obj "t" exFields
        ⟨[("id", .intP 7), ("name", .strP "a")],
          some ⟨7, [], [("name", .textV "a")]⟩⟩
        (.integrityErr "UNIQUE constraint failed: t.name")
      = .error (.dbUnique "UNIQUE constraint failed: t.name")
    ∧ SaveErr.dbUnique "UNIQUE constraint failed: t.name"
        ≠ SaveErr.alreadyExists "UNIQUE constraint failed: t.name" := by
  refine ⟨by rfl, by simp⟩

/-- Claim C2 (amended): an integrity failure whose message indicates a
uniqueness violation is re-raised as the record class scoped
AlreadyExists only on the INSERT path of save; on the UPDATE path the
unscoped unique-violation error of the access layer (DBUniqueError)
propagates instead. On both paths save returns the error without
producing a new instance state: the persisted identity and the dirty map
are exactly as before the call (in the source, nothing is mutated before
the raise). Non-unique integrity failures propagate unchanged on both
paths. -/
theorem C2_unique_violation (table : String) (fields : List FieldDef)
    (slots : List (String × PyVal)) (p : DBObjectProps) (msg : String)
    (hu : isUniqueMsg msg = true) :
    (p.db_id < 0 →
      fields.find?
          (fun fd => fd.name ≠ "id" ∧ lookupA p.modified fd.db_name = none)
        = none →
      save_obj table fields ⟨slots, some p⟩ (.integrityErr msg)
        = .error (.alreadyExists msg))
    ∧ (0 ≤ p.db_id → p.modified ≠ [] →
      save_obj table fields ⟨slots, some p⟩ (.integrityErr msg)
        = .error (.dbUnique msg)) := by
  constructor
  · intro hneg hmiss
    unfold save_obj
    dsimp only
    have h1 : ¬(p.modified = [] ∧ ¬(p.db_id < 0)) := by
      intro h
      exact h.2 hneg
    rw [if_neg h1, if_pos hneg, hmiss]
    simp [hu]
  · intro hpos hmod
    unfold save_obj
    dsimp only
    have h1 : ¬(p.modified = [] ∧ ¬(p.db_id < 0)) := by
      intro h
      exact hmod h.1
    have h2 : ¬(p.db_id < 0) := by omega
    rw [if_neg h1, if_neg h2]
    simp [hu]

/-- Witness for C2 at concrete states: an unpersisted insert collision
raises the scoped exception, a persisted update collision raises the
unscoped one. -/
theorem C2_unique_violation_witness :
    save_obj "t" exFields
        ⟨[("name", .strP "a")], some ⟨-1, [], [("name", .textV "a")]⟩⟩
        (.integrityErr "UNIQUE constraint failed: t.name")
      = .error (.alreadyExists "UNIQUE constraint failed: t.name")
    ∧ save_obj "t" exFields
        ⟨[("id", .intP 7), ("name", .strP "a")],
          some ⟨7, [], [("name", .textV "a")]⟩⟩
        (.integrityErr "UNIQUE constraint failed: t.name")
      = .error (.dbUnique "UNIQUE constraint failed: t.name") := by
  constructor
  · exact (C2_unique_violation "t" exFields [("name", .strP "a")]
      ⟨-1, [], [("name", .textV "a")]⟩ "UNIQUE constraint failed: t.name"
      (by decide)).1 (by decide) (by decide)
  · exact (C2_unique_violation "t" exFields
      [("id", .intP 7), ("name", .strP "a")]
      ⟨7, [], [("name", .textV "a")]⟩ "UNIQUE constraint failed: t.name"
      (by decide)).2 (by decide) (by decide)

/-- Claim C4: save of an unpersisted instance with a non-identity field
lacking a dirty value fails naming such a field; save of an unpersisted
instance with all non-identity fields set inserts the full dirty map,
adopts the engine-returned row identity (both as the persisted id and as
the id attribute) and clears the dirty map; save of a clean persisted
instance is a no-op issuing no statement; save of a dirty persisted
instance updates exactly the dirty columns of the row with the persisted
identity, clears the dirty map, and adopts a reassigned id value as the
persisted identity. -/
theorem C4_save_obj (table : String) (fields : List FieldDef)
    (slots : List (String × PyVal)) (p : DBObjectProps) :
    (p.db_id < 0 → ∀ fd : FieldDef,
      fields.find?
          (fun f => f.name ≠ "id" ∧ lookupA p.modified f.db_name = none)
        = some fd →
      fd ∈ fields ∧ fd.name ≠ "id" ∧ lookupA p.modified fd.db_name = none
      ∧ ∀ dbRes, save_obj table fields ⟨slots, some p⟩ dbRes
          = .error (.noValue fd.name))
    ∧ (p.db_id < 0 →
      (∀ fd ∈ fields, fd.name ≠ "id" → (lookupA p.modified fd.db_name).isSome) →
      ∀ rowid : Int,
        save_obj table fields ⟨slots, some p⟩ (.okRes rowid)
          = .ok (⟨insertA slots "id" (.intP rowid), some ⟨rowid, p.fk_ids, []⟩⟩,
                 [.insertOp table p.modified]))
    ∧ (0 ≤ p.db_id → p.modified = [] →
      ∀ dbRes, save_obj table fields ⟨slots, some p⟩ dbRes = .ok (⟨slots, some p⟩, []))
    ∧ (0 ≤ p.db_id → p.modified ≠ [] →
      ∀ rowid : Int,
        save_obj table fields ⟨slots, some p⟩ (.okRes rowid)
          = .ok (⟨slots, some ⟨adoptId p.modified p.db_id, p.fk_ids, []⟩⟩,
                 [.updateEqualOp table "id" (.intV p.db_id) p.modified])) := by
  refine ⟨?_, ?_, ?_, ?_⟩
  · intro hneg fd hfd
    have hmem := List.mem_of_find?_eq_some hfd
    have hprop := List.find?_some hfd
    simp only [decide_eq_true_eq] at hprop
    refine ⟨hmem, hprop.1, hprop.2, ?_⟩
    intro dbRes
    unfold save_obj
    dsimp only
    have h1 : ¬(p.modified = [] ∧ ¬(p.db_id < 0)) := fun h => h.2 hneg
    rw [if_neg h1, if_pos hneg, hfd]
  · intro hneg hall rowid
    unfold save_obj
    dsimp only
    have h1 : ¬(p.modified = [] ∧ ¬(p.db_id < 0)) := fun h => h.2 hneg
    have hfind : fields.find?
        (fun fd => fd.name ≠ "id" ∧ lookupA p.modified fd.db_name = none)
          = none := by
      rw [List.find?_eq_none]
      intro fd hmem
      simp only [decide_eq_true_eq, not_and]
      intro hname
      have := hall fd hmem hname
      intro hnone
      rw [hnone] at this
      simp at this
    rw [if_neg h1, if_pos hneg, hfind]
  · intro hpos hemp dbRes
    unfold save_obj
    dsimp only
    have h1 : p.modified = [] ∧ ¬(p.db_id < 0) := ⟨hemp, by omega⟩
    rw [if_pos h1]
  · intro hpos hmod rowid
    have h1 : ¬(p.modified = [] ∧ ¬(p.db_id < 0)) := fun h => hmod h.1
    have h2 : ¬(p.db_id < 0) := by omega
    unfold save_obj
    dsimp only
    rw [if_neg h1, if_neg h2]

/-- Witness for C4: a concrete unpersisted instance missing its name
field fails; with the name set, insert adopts id 9 and clears the dirty
map; a clean persisted instance is a no-op; a dirty persisted instance
with a reassigned id adopts it. -/
theorem C4_save_obj_witness :
    save_obj "t" exFields ⟨[], some ⟨-1, [], []⟩⟩ (.okRes 9)
      = .error (.noValue "name")
    ∧ save_obj "t" exFields
        ⟨[("name", .strP "a")], some ⟨-1, [], [("name", .textV "a")]⟩⟩
        (.okRes 9)
      = .ok (⟨[("name", .strP "a"), ("id", .intP 9)], some ⟨9, [], []⟩⟩,
             [.insertOp "t" [("name", .textV "a")]])
    ∧ save_obj "t" exFields ⟨[("id", .intP 7)], some ⟨7, [], []⟩⟩ (.okRes 0)
      = .ok (⟨[("id", .intP 7)], some ⟨7, [], []⟩⟩, [])
    ∧ save_obj "t" exFields
        ⟨[("id", .intP 8)], some ⟨7, [], [("id", .intV 8)]⟩⟩ (.okRes 0)
      = .ok (⟨[("id", PyVal.intP 8)], some ⟨8, [], []⟩⟩,
             [.updateEqualOp "t" "id" (.intV 7) [("id", .intV 8)]]) := by
  refine ⟨?_, ?_, ?_, ?_⟩
  · exact ((C4_save_obj "t" exFields [] ⟨-1, [], []⟩).1 (by decide)
      ⟨"name", "name", .value .strT, false⟩ (by decide)).2.2.2 (.okRes 9)
  · exact (C4_save_obj "t" exFields [("name", .strP "a")]
      ⟨-1, [], [("name", .textV "a")]⟩).2.1 (by decide) (by decide) 9
  · exact (C4_save_obj "t" exFields [("id", .intP 7)] ⟨7, [], []⟩).2.2.1
      (by decide) (by decide) (.okRes 0)
  · exact (C4_save_obj "t" exFields [("id", .intP 8)]
      ⟨7, [], [("id", .intV 8)]⟩).2.2.2 (by decide) (by decide) 0

/-- Claim C3: reading a declared field that has never been assigned a
value (no populated slot, and no pending foreign-key id from hydration)
signals an error instead of returning a default value: a value-typed
field hits the get_fk_type assertion of resolve_fk, a foreign-key field
raises the KeyError of the pending-id lookup; no query is issued either
way. -/
theorem C3_missing_value (fields : List FieldDef) (s : ObjState)
    (key : String) (fd : FieldDef) (p : DBObjectProps)
    (hf : fields.find? (fun f => f.name = key) = some fd)
    (hslot : lookupA s.slots key = none)
    (hp : s.props = some p)
    (hfk : lookupA p.fk_ids key = none) :
    (getattrObj fields s key).1
        = .error (match fd.kind with
            | .value _ => GetErr.assertNonFK
            | .fk _ => GetErr.keyError)
    ∧ (getattrObj fields s key).2.2 = [] := by
  unfold getattrObj
  rw [hslot, hf, hp]
  obtain ⟨name, dbn, kind, nb⟩ := fd
  cases kind with
  | value ty => exact ⟨rfl, rfl⟩
  | fk target =>
    dsimp only
    rw [hfk]
    exact ⟨rfl, rfl⟩

/-- Witness for C3 on a fresh empty instance of the example table with a
foreign-key field: reading the unset text field errors with the non-FK
assertion, reading the unset foreign-key field errors with the missing
pending id, neither issuing a query. -/
theorem C3_missing_value_witness :
    (getattrObj
        [idField, ⟨"name", "name", .value .strT, false⟩,
          ⟨"dev", "dev_id", .fk "device", true⟩]
        ⟨[], some ⟨-1, [], []⟩⟩ "name").1 = .error .assertNonFK
    ∧ (getattrObj
        [idField, ⟨"name", "name", .value .strT, false⟩,
          ⟨"dev", "dev_id", .fk "device", true⟩]
        ⟨[], some ⟨-1, [], []⟩⟩ "dev").1 = .error .keyError := by
  constructor
  · exact (C3_missing_value
      [idField, ⟨"name", "name", .value .strT, false⟩,
        ⟨"dev", "dev_id", .fk "device", true⟩]
      ⟨[], some ⟨-1, [], []⟩⟩ "name" ⟨"name", "name", .value .strT, false⟩
      ⟨-1, [], []⟩ (by decide) (by decide) rfl (by decide)).1
  · exact (C3_missing_value
      [idField, ⟨"name", "name", .value .strT, false⟩,
        ⟨"dev", "dev_id", .fk "device", true⟩]
      ⟨[], some ⟨-1, [], []⟩⟩ "dev" ⟨"dev", "dev_id", .fk "device", true⟩
      ⟨-1, [], []⟩ (by decide) (by decide) rfl (by decide)).1

/-- Claim C9: on an instance hydrated from a row whose foreign-key
column is non-null (so its slot is unset and a pending id is recorded),
the first read of that attribute issues exactly one fetch of the target
record by that id and caches the resolved instance in the slot; the
second read returns the identical cached instance with no database
access; and a foreign-key attribute hydrated as null is read from its
slot directly and never triggers a lookup. -/
theorem C9_fk_resolution (fields : List FieldDef) (row : List DBValue)
    (key target : String) (fd : FieldDef) (k : Int) (p : DBObjectProps)
    (hslot : lookupA (obj_from_db fields row).slots key = none)
    (hf : fields.find? (fun f => f.name = key) = some fd)
    (hk : fd.kind = .fk target)
    (hp : (obj_from_db fields row).props = some p)
    (hfk : lookupA p.fk_ids key = some k) :
    getattrObj fields (obj_from_db fields row) key
      = (.ok (.objP target k k false),
         ⟨insertA (obj_from_db fields row).slots key (.objP target k k false),
          (obj_from_db fields row).props⟩,
         [.fetchOneOp target k])
    ∧ getattrObj fields
        ⟨insertA (obj_from_db fields row).slots key (.objP target k k false),
         (obj_from_db fields row).props⟩ key
      = (.ok (.objP target k k false),
         ⟨insertA (obj_from_db fields row).slots key (.objP target k k false),
          (obj_from_db fields row).props⟩, [])
    ∧ (∀ (s' : ObjState) (nullKey : String),
        lookupA s'.slots nullKey = some .noneV →
        getattrObj fields s' nullKey = (.ok .noneV, s', [])) := by
  refine ⟨?_, ?_, ?_⟩
  · unfold getattrObj
    rw [hslot]
    dsimp only
    rw [hf]
    dsimp only
    rw [hp]
    dsimp only
    rw [hk]
    dsimp only
    rw [hfk]
  · unfold getattrObj
    rw [lookupA_insertA_self]
  · intro s' nullKey h
    unfold getattrObj
    rw [h]

/-- Witness for C9 on a device reference hydrated from the row
(id 1, dev 5): the first read fetches device 5 once and caches it, the
second read hits the cache with no query, and a null-hydrated slot is
returned without lookup. -/
theorem C9_fk_resolution_witness :
    getattrObj [idField, ⟨"dev", "dev_id", .fk "device", false⟩]
        (obj_from_db [idField, ⟨"dev", "dev_id", .fk "device", false⟩]
          [.intV 1, .intV 5]) "dev"
      = (.ok (.objP "device" 5 5 false),
         ⟨insertA (obj_from_db [idField, ⟨"dev", "dev_id", .fk "device", false⟩]
            [.intV 1, .intV 5]).slots "dev" (.objP "device" 5 5 false),
          (obj_from_db [idField, ⟨"dev", "dev_id", .fk "device", false⟩]
            [.intV 1, .intV 5]).props⟩,
         [.fetchOneOp "device" 5])
    ∧ getattrObj [idField, ⟨"dev", "dev_id", .fk "device", false⟩]
        ⟨[("x", PyVal.noneV)], none⟩ "x"
      = (.ok .noneV, ⟨[("x", PyVal.noneV)], none⟩, []) := by
  constructor
  · exact (C9_fk_resolution [idField, ⟨"dev", "dev_id", .fk "device", false⟩]
      [.intV 1, .intV 5] "dev" "device" ⟨"dev", "dev_id", .fk "device", false⟩
      5 ⟨1, [("dev", 5)], []⟩ (by decide) (by decide) rfl (by decide)
      (by decide)).1
  · exact (C9_fk_resolution [idField, ⟨"dev", "dev_id", .fk "device", false⟩]
      [.intV 1, .intV 5] "dev" "device" ⟨"dev", "dev_id", .fk "device", false⟩
      5 ⟨1, [("dev", 5)], []⟩ (by decide) (by decide) rfl (by decide)
      (by decide)).2.2 ⟨[("x", PyVal.noneV)], none⟩ "x" (by decide)

/-- Counterexample to claim C7: after deleting a clean persisted
instance of the example table, reading the already-populated name
attribute still returns the cached value with no error, although the
claim requires every subsequent field access on the deleted instance to
fail with the typed deleted-record error. -/
theorem C7_counterexample :
    delete_obj "t" ⟨[("id", .intP 3), ("name", .strP "a")], some ⟨3, [], []⟩⟩
      = .ok (⟨[("id", .intP 3), ("name", .strP "a")], none⟩,
             [.deleteEqualOp "t" "id" (.intV 3)])
    ∧ getattrObj exFields
        ⟨[("id", PyVal.intP 3), ("name", PyVal.strP "a")], none⟩ "name"
      = (.ok (.strP "a"),
         ⟨[("id", PyVal.intP 3), ("name", PyVal.strP "a")], none⟩, []) := by
  exact ⟨rfl, rfl⟩

/-- Claim C7 (amended): delete on an instance with a non-empty dirty map
raises an error before any statement is issued; delete on a clean
persisted instance issues exactly one delete of the row with the
persisted identity and removes the instance properties, after which
every field mutation fails (with the typed deleted-record error, except
that assigning a negative id fails with the negative-id error first) and
every read of an attribute that is not already populated fails with the
typed deleted-record error; reads of already-populated attributes return
the cached value. -/
theorem C7_delete_obj (table : String) (fields : List FieldDef)
    (s : ObjState) (p : DBObjectProps) (hp : s.props = some p) :
    (p.modified ≠ [] → delete_obj table s = .error .isModified)
    ∧ (p.modified = [] → 0 ≤ p.db_id →
        delete_obj table s
          = .ok (⟨s.slots, none⟩, [.deleteEqualOp table "id" (.intV p.db_id)]))
    ∧ (∀ (s' : ObjState), s'.props = none → ∀ (key : String) (v : PyVal),
        setattrObj fields s' key v = .error .deletedUse
        ∨ setattrObj fields s' key v = .error .negativeId)
    ∧ (∀ (s' : ObjState), s'.props = none → ∀ key : String,
        lookupA s'.slots key = none →
        (fields.find? (fun f => f.name = key)).isSome →
        (getattrObj fields s' key).1 = .error .deletedUse)
    ∧ (∀ (s' : ObjState) (key : String) (v : PyVal),
        lookupA s'.slots key = some v →
        getattrObj fields s' key = (.ok v, s', [])) := by
  refine ⟨?_, ?_, ?_, ?_, ?_⟩
  · intro hmod
    unfold delete_obj
    rw [hp]
    dsimp only
    rw [if_pos hmod]
  · intro hemp hpos
    unfold delete_obj
    rw [hp]
    dsimp only
    have h1 : ¬(p.modified ≠ []) := by simp [hemp]
    have h2 : ¬(p.db_id < 0) := by omega
    rw [if_neg h1, if_neg h2]
  · intro s' hnone key v
    unfold setattrObj
    by_cases hc : (key = "id" && (match v with | .intP n => n < 0 | _ => false)) = true
    · right
      rw [if_pos hc]
    · left
      rw [if_neg hc, hnone]
  · intro s' hnone key hslot hfind
    obtain ⟨fd, hfd⟩ := Option.isSome_iff_exists.mp hfind
    unfold getattrObj
    rw [hslot]
    dsimp only
    rw [hfd]
    dsimp only
    rw [hnone]
  · intro s' key v hslot
    unfold getattrObj
    rw [hslot]

/-- Witness for C7: deleting a dirty instance errors; deleting the clean
persisted instance issues the single delete by id 3; afterwards
assigning the name field fails with the deleted-record error and reading
the never-populated name field of an emptied instance fails likewise. -/
theorem C7_delete_obj_witness :
    delete_obj "t" ⟨[("id", .intP 3)], some ⟨3, [], [("name", .textV "b")]⟩⟩
      = .error .isModified
    ∧ delete_obj "t" ⟨[("id", .intP 3)], some ⟨3, [], []⟩⟩
      = .ok (⟨[("id", PyVal.intP 3)], none⟩,
             [.deleteEqualOp "t" "id" (.intV 3)])
    ∧ (setattrObj exFields ⟨[("id", PyVal.intP 3)], none⟩ "name" (.strP "c")
        = .error .deletedUse
      ∨ setattrObj exFields ⟨[("id", PyVal.intP 3)], none⟩ "name" (.strP "c")
        = .error .negativeId)
    ∧ (getattrObj exFields ⟨[("id", PyVal.intP 3)], none⟩ "name").1
      = .error .deletedUse := by
  refine ⟨?_, ?_, ?_, ?_⟩
  · exact (C7_delete_obj "t" exFields
      ⟨[("id", .intP 3)], some ⟨3, [], [("name", .textV "b")]⟩⟩
      ⟨3, [], [("name", .textV "b")]⟩ rfl).1 (by decide)
  · exact (C7_delete_obj "t" exFields ⟨[("id", .intP 3)], some ⟨3, [], []⟩⟩
      ⟨3, [], []⟩ rfl).2.1 rfl (by decide)
  · exact (C7_delete_obj "t" exFields ⟨[("id", .intP 3)], some ⟨3, [], []⟩⟩
      ⟨3, [], []⟩ rfl).2.2.1 ⟨[("id", PyVal.intP 3)], none⟩ rfl "name"
      (.strP "c")
  · exact (C7_delete_obj "t" exFields ⟨[("id", .intP 3)], some ⟨3, [], []⟩⟩
      ⟨3, [], []⟩ rfl).2.2.2.1 ⟨[("id", PyVal.intP 3)], none⟩ rfl "name"
      (by decide) (by decide)

/-- Claim C10: assigning a record instance to a foreign-key field is
accepted exactly when the instance reports a stable database identity,
meaning a non-negative persisted id with the identity field absent from
its dirty map (check_has_id); the stored column value is the id
attribute of the assigned instance, which under that condition is its
persisted identity; an instance never saved (negative persisted id) or
with an unsaved id reassignment is rejected with the typed invalid-value
error stating the object must have been saved. -/
theorem C10_fk_assignment (fd : FieldDef) (target field_name : String)
    (id_attr db_id : Int) (id_mod : Bool)
    (hk : fd.kind = .fk target) :
    (check_has_id db_id id_mod = true →
      convert_to_db fd field_name (.objP target id_attr db_id id_mod)
        = .ok (.intV id_attr))
    ∧ (id_attr = db_id → check_has_id db_id id_mod = true →
      convert_to_db fd field_name (.objP target id_attr db_id id_mod)
        = .ok (.intV db_id))
    ∧ (db_id < 0 ∨ id_mod = true →
      convert_to_db fd field_name (.objP target id_attr db_id id_mod)
        = .error (.notSaved field_name))
    ∧ (check_has_id db_id id_mod = true ↔ 0 ≤ db_id ∧ id_mod = false) := by
  have hstep : convert_to_db fd field_name (.objP target id_attr db_id id_mod)
      = if check_has_id db_id id_mod then .ok (.intV id_attr)
        else .error (.notSaved field_name) := by
    unfold convert_to_db
    rw [hk]
    dsimp only
    rw [if_pos rfl]
  refine ⟨?_, ?_, ?_, ?_⟩
  · intro hc
    rw [hstep, if_pos hc]
  · intro heq hc
    rw [hstep, if_pos hc, heq]
  · intro h
    have hc : check_has_id db_id id_mod = false := by
      unfold check_has_id
      rcases h with h | h
      · simp
        intro hge
        omega
      · simp [h]
    rw [hstep, hc]
    simp
  · unfold check_has_id
    simp

/-- Witness for C10 on a device-reference field: a saved device with
stable id 5 is stored as the integer 5; an unsaved device and a device
with a dirty id are both rejected. -/
theorem C10_fk_assignment_witness :
    convert_to_db ⟨"dev", "dev_id", .fk "device", false⟩ "dev"
        (.objP "device" 5 5 false) = .ok (.intV 5)
    ∧ convert_to_db ⟨"dev", "dev_id", .fk "device", false⟩ "dev"
        (.objP "device" 5 (-1) false) = .error (.notSaved "dev")
    ∧ convert_to_db ⟨"dev", "dev_id", .fk "device", false⟩ "dev"
        (.objP "device" 9 5 true) = .error (.notSaved "dev") := by
  refine ⟨?_, ?_, ?_⟩
  · exact (C10_fk_assignment ⟨"dev", "dev_id", .fk "device", false⟩ "device"
      "dev" 5 5 false rfl).1 (by decide)
  · exact (C10_fk_assignment ⟨"dev", "dev_id", .fk "device", false⟩ "device"
      "dev" 5 (-1) false rfl).2.2.1 (Or.inl (by decide))
  · exact (C10_fk_assignment ⟨"dev", "dev_id", .fk "device", false⟩ "device"
      "dev" 9 5 true rfl).2.2.1 (Or.inr rfl)

end PyShellyTemp
